import Mathlib

/-!
Verification development for the movie-code Telegram bot (`bot.py`).

The bot maps short alphanumeric codes to movie titles, gated behind a
channel-subscription check and a one-time activation step, with an
administrator workflow to add/list/delete entries.

Shallow embedding choices:
- Python dicts (`MOVIES`, `PENDING_CODES`, `ADMIN_STATES`, `ADMIN_DATA`)
  become association lists with unique-key update (`alSet`),
  lookup (`alGet`) and removal (`alPop`), mirroring insertion-ordered
  dict semantics.
- `READY_USERS` (a set) becomes a list with membership-guarded insertion.
- `str.upper()` / `str.strip()` become `pyUpper` / `pyStrip` over the
  character list of the string.
- Python truthiness of `Optional[str]` (`if not code:`) becomes
  `strFalsy` (falsy iff `none` or the empty string).
- The external Telegram calls (`bot.get_chat_member`, `message.answer`,
  `edit_text`, `callback.answer`) are modelled as: an oracle parameter
  `gcm : ChatId → Nat → Option String` (`none` = the call raised an
  exception, `some s` = the returned member status), and an output action
  list (`Action`). `save_movies` becomes the `Action.save` effect.
- The `KeyError` that `ADMIN_DATA[user_id]["code"]` would raise when the
  key is absent is modelled by the `Action.keyError` effect with the
  state left untouched.
Each handler of `bot.py` becomes a pure function
`BotState → BotState × List Action`.
-/

namespace Tgbot

/-- Model of Python `str.upper()` (source: `text.upper()` in `bot.py`).
Maps ASCII homogeneously with `Char.toUpper`; the codes handled by the
bot are ASCII alphanumerics. -/
def pyUpper (s : String) : String :=
  ⟨s.data.map Char.toUpper⟩

/-- Model of Python `str.strip()` (source: `message.text.strip()` in
`bot.py`): drop whitespace from both ends. -/
def pyStrip (s : String) : String :=
  ⟨((s.data.dropWhile Char.isWhitespace).reverse.dropWhile Char.isWhitespace).reverse⟩

/-- Python truthiness test for an `Optional[str]` value: `None` and the
empty string are falsy (source: `if not code:` / `if not movie_title:`). -/
def strFalsy : Option String → Bool
  | none => true
  | some s => s = ""

/-- Association-list lookup, modelling Python `d.get(k)` / `d[k]`. -/
def alGet {α β : Type} [DecidableEq α] : List (α × β) → α → Option β
  | [], _ => none
  | (k, v) :: rest, a => if k = a then some v else alGet rest a

/-- Association-list insert-or-overwrite, modelling Python `d[k] = v`
(an existing key keeps its position, a new key is appended, matching
insertion-ordered dict semantics). -/
def alSet {α β : Type} [DecidableEq α] : List (α × β) → α → β → List (α × β)
  | [], a, b => [(a, b)]
  | (k, v) :: rest, a, b =>
    if k = a then (k, b) :: rest else (k, v) :: alSet rest a b

/-- Association-list removal, modelling Python `d.pop(k, None)` /
`d.pop(k)`: dict keys are unique, so removing every matching entry
coincides with removing the single one. -/
def alPop {α β : Type} [DecidableEq α] : List (α × β) → α → List (α × β)
  | [], _ => []
  | (k, v) :: rest, a => if k = a then alPop rest a else (k, v) :: alPop rest a

/-- Identity of a chat passed to the membership lookup: `int(channel)`
when the configured string parses as an integer, the raw handle string
otherwise (source: the `try: channel_id = int(channel)` block). -/
inductive ChatId : Type where
  | num (n : Int)
  | handle (s : String)
deriving DecidableEq

/-- Coercion of a configured channel string to a `ChatId`, modelling the
`int(channel)` / `except ValueError` block of `is_user_subscribed`. -/
def parseChannel (c : String) : ChatId :=
  match c.toInt? with
  | some n => ChatId.num n
  | none => ChatId.handle c

/-- Process configuration read once at startup: `ADMIN_ID`,
`REQUIRED_CHANNELS`, `INVITE_LINK`. -/
structure Config : Type where
  adminId : Nat
  requiredChannels : List String
  inviteLink : String
deriving DecidableEq

/-- Global mutable state of the bot process: `MOVIES`, `PENDING_CODES`,
`ADMIN_STATES`, `ADMIN_DATA` (its per-user dict `{"code": c}` is
modelled by the captured code `c` itself), `READY_USERS`. -/
structure BotState : Type where
  movies : List (String × String)
  pendingCodes : List (Nat × String)
  adminStates : List (Nat × String)
  adminData : List (Nat × String)
  readyUsers : List Nat
deriving DecidableEq

/-- Keyboards attached to outbound messages: `get_start_keyboard`,
`get_admin_keyboard`, `get_channels_keyboard`. -/
inductive Kb : Type where
  | start
  | admin
  | channels
deriving DecidableEq

/-- Outbound message bodies, one constructor per literal message of
`bot.py` (payload-carrying where the source interpolates values). -/
inductive Msg : Type where
  /-- Greeting of `/start`. -/
  | startGreeting
  /-- Text "У тебя нет доступа к админ-панели." -/
  | adminDenied
  /-- Text "Админ-панель:". -/
  | adminPanel
  /-- Text "Бот активирован ✅ …". -/
  | activated
  /-- Alert "Ты ещё не подписался на канал 🙏". -/
  | notYetSubscribed
  /-- Text "Подписка есть ✅ … отправь код из видео …". -/
  | subscribedGeneric
  /-- Text "Ты подписан ✅ Но что-то пошло не так с кодом …". -/
  | codeMismatch
  /-- Text "🎬 Название фильма по коду {code}: {title}". -/
  | movieTitle (code title : String)
  /-- Alert "Нет доступа.". -/
  | noAccess
  /-- Text "Режим добавления фильма. … Отправь код фильма …". -/
  | addModePrompt
  /-- Text "Список фильмов пуст.". -/
  | listEmpty
  /-- Text "📃 Список фильмов (первые 50): …". -/
  | movieList (items : List (String × String))
  /-- Text "Режим удаления фильма. … Отправь код фильма …". -/
  | deleteModePrompt
  /-- Text "Код {code} сохранён. Теперь отправь название фильма.". -/
  | codeSaved (code : String)
  /-- Text "✅ Фильм добавлен: …". -/
  | movieAdded (code title : String)
  /-- Text "🗑 Фильм удалён: …". -/
  | movieDeleted (code title : String)
  /-- Text "❌ Фильма с кодом {code} нет в базе.". -/
  | movieNotInBase (code : String)
  /-- Text "Сначала нажми кнопку «🚀 Начать» …". -/
  | activatePrompt
  /-- Text "❌ Не нашёл такой код. …". -/
  | codeNotFound
  /-- Text "Чтобы узнать название фильма, нужно подписаться на канал …". -/
  | subscribePrompt
deriving DecidableEq

/-- Observable effects of one handler run: outbound sends/edits/alerts,
the `save_movies` call (with the mapping it would serialize), and the
`KeyError` raised by an out-of-protocol `ADMIN_DATA` access. -/
inductive Action : Type where
  | send (userId : Nat) (m : Msg) (kb : Option Kb)
  | edit (userId : Nat) (m : Msg) (kb : Option Kb)
  | answerAlert (userId : Nat) (m : Msg)
  | save (movies : List (String × String))
  | keyError
deriving DecidableEq

/-- Default seed mapping returned by `load_movies` when the snapshot is
missing or unreadable. -/
def defaultMovies : List (String × String) :=
  [("A123", "Бойцовский клуб"), ("B415", "Начало"), ("C777", "Матрица")]

/-- Model of the dict comprehension
`{str(k).upper(): str(v) for k, v in data.items()}`: build a dict by
inserting every parsed pair with its key uppercased. -/
def upperKeysDict (d : List (String × String)) : List (String × String) :=
  d.foldl (fun acc p => alSet acc (pyUpper p.1) p.2) []

/-- Embedding of `load_movies`. The filesystem outcome is the input:
`none` = `movies.json` does not exist, `some none` = it exists but
reading/parsing raised, `some (some d)` = it parsed to the JSON object
`d` (a list of string key/value pairs). -/
def load_movies (fs : Option (Option (List (String × String)))) : List (String × String) :=
  match fs with
  | some (some data) => upperKeysDict data
  | some none => defaultMovies
  | none => defaultMovies

/-- Loop body of `is_user_subscribed`: walk the configured channels,
returning `False` on a raising lookup (`none`) or a "left"/"kicked"
status, `True` once all channels pass. -/
def subsLoop (gcm : ChatId → Nat → Option String) (userId : Nat) : List String → Bool
  | [] => true
  | ch :: rest =>
    match gcm (parseChannel ch) userId with
    | none => false
    | some status =>
      if status = "left" ∨ status = "kicked" then false
      else subsLoop gcm userId rest

/-- Embedding of `is_user_subscribed`: `True` immediately when
`REQUIRED_CHANNELS` is empty, otherwise the channel loop. -/
def is_user_subscribed (channels : List String) (gcm : ChatId → Nat → Option String)
    (userId : Nat) : Bool :=
  subsLoop gcm userId channels

/-- Embedding of `cmd_start` (the `/start` handler): greeting with the
activation keyboard, no state change. -/
def cmd_start (st : BotState) (userId : Nat) : BotState × List Action :=
  (st, [Action.send userId Msg.startGreeting (some Kb.start)])

/-- Embedding of `admin_panel` (the `/admin` handler): access check,
then the admin menu. -/
def admin_panel (cfg : Config) (st : BotState) (userId : Nat) : BotState × List Action :=
  if userId ≠ cfg.adminId then
    (st, [Action.send userId Msg.adminDenied none])
  else
    (st, [Action.send userId Msg.adminPanel (some Kb.admin)])

/-- Embedding of `callback_user_start`: record the user in
`READY_USERS` and edit the message to the activation confirmation. -/
def callback_user_start (st : BotState) (userId : Nat) : BotState × List Action :=
  ({ st with readyUsers :=
      if userId ∈ st.readyUsers then st.readyUsers else userId :: st.readyUsers },
   [Action.edit userId Msg.activated none])

/-- Embedding of `callback_check_subs` (the "I subscribed" button):
re-check the subscription, then resolve any pending code. -/
def callback_check_subs (cfg : Config) (gcm : ChatId → Nat → Option String)
    (st : BotState) (userId : Nat) : BotState × List Action :=
  if is_user_subscribed cfg.requiredChannels gcm userId = false then
    (st, [Action.answerAlert userId Msg.notYetSubscribed])
  else
    let code? := alGet st.pendingCodes userId
    if strFalsy code? then
      (st, [Action.edit userId Msg.subscribedGeneric none])
    else
      let code := code?.getD ""
      let title? := alGet st.movies code
      if strFalsy title? then
        ({ st with pendingCodes := alPop st.pendingCodes userId },
         [Action.edit userId Msg.codeMismatch none])
      else
        ({ st with pendingCodes := alPop st.pendingCodes userId },
         [Action.edit userId (Msg.movieTitle code (title?.getD "")) none])

/-- Embedding of the `admin_add_movie` callback: access check, enter
`add_wait_code`, clear the scratch data, prompt for a code. -/
def admin_add_movie (cfg : Config) (st : BotState) (userId : Nat) : BotState × List Action :=
  if userId ≠ cfg.adminId then
    (st, [Action.answerAlert userId Msg.noAccess])
  else
    ({ st with adminStates := alSet st.adminStates userId "add_wait_code",
               adminData := alPop st.adminData userId },
     [Action.edit userId Msg.addModePrompt none])

/-- Embedding of the `admin_list_movies` callback: access check, then
either the explicit empty message or the first 50 entries. -/
def admin_list_movies (cfg : Config) (st : BotState) (userId : Nat) : BotState × List Action :=
  if userId ≠ cfg.adminId then
    (st, [Action.answerAlert userId Msg.noAccess])
  else if st.movies = [] then
    (st, [Action.edit userId Msg.listEmpty (some Kb.admin)])
  else
    (st, [Action.edit userId (Msg.movieList (st.movies.take 50)) (some Kb.admin)])

/-- Embedding of the `admin_delete_movie` callback: access check, enter
`delete_wait_code`, clear the scratch data, prompt for a code. -/
def admin_delete_movie (cfg : Config) (st : BotState) (userId : Nat) : BotState × List Action :=
  if userId ≠ cfg.adminId then
    (st, [Action.answerAlert userId Msg.noAccess])
  else
    ({ st with adminStates := alSet st.adminStates userId "delete_wait_code",
               adminData := alPop st.adminData userId },
     [Action.edit userId Msg.deleteModePrompt none])

/-- Embedding of the ordinary-user part of `handle_text` (after the
admin block): activation gate, then code lookup, then subscription
gate. `text` is already stripped. -/
def handle_text_user (cfg : Config) (gcm : ChatId → Nat → Option String)
    (st : BotState) (userId : Nat) (text : String) : BotState × List Action :=
  if userId ∉ st.readyUsers ∧ userId ≠ cfg.adminId then
    (st, [Action.send userId Msg.activatePrompt (some Kb.start)])
  else
    let code := pyUpper text
    let title? := alGet st.movies code
    if strFalsy title? then
      (st, [Action.send userId Msg.codeNotFound none])
    else if is_user_subscribed cfg.requiredChannels gcm userId = false then
      ({ st with pendingCodes := alSet st.pendingCodes userId code },
       [Action.send userId Msg.subscribePrompt (some Kb.channels)])
    else
      (st, [Action.send userId (Msg.movieTitle code (title?.getD "")) none])

/-- Embedding of `handle_text`. The Python handler enters the admin
block iff the sender is the administrator and has an entry in
`ADMIN_STATES`, dispatches on the three state strings, and otherwise
falls through to the ordinary-user path; this is flattened here to one
condition per admin branch. -/
def handle_text (cfg : Config) (gcm : ChatId → Nat → Option String)
    (st : BotState) (userId : Nat) (rawText : String) : BotState × List Action :=
  let text := pyStrip rawText
  let state := alGet st.adminStates userId
  if userId = cfg.adminId ∧ state = some "add_wait_code" then
    let code := pyUpper text
    ({ st with adminData := alSet st.adminData userId code,
               adminStates := alSet st.adminStates userId "add_wait_title" },
     [Action.send userId (Msg.codeSaved code) none])
  else if userId = cfg.adminId ∧ state = some "add_wait_title" then
    match alGet st.adminData userId with
    | none => (st, [Action.keyError])
    | some code =>
      ({ st with movies := alSet st.movies code text,
                 adminStates := alPop st.adminStates userId,
                 adminData := alPop st.adminData userId },
       [Action.save (alSet st.movies code text),
        Action.send userId (Msg.movieAdded code text) (some Kb.admin)])
  else if userId = cfg.adminId ∧ state = some "delete_wait_code" then
    let code := pyUpper text
    match alGet st.movies code with
    | some title =>
      ({ st with movies := alPop st.movies code,
                 adminStates := alPop st.adminStates userId,
                 adminData := alPop st.adminData userId },
       [Action.save (alPop st.movies code),
        Action.send userId (Msg.movieDeleted code title) (some Kb.admin)])
    | none =>
      ({ st with adminStates := alPop st.adminStates userId,
                 adminData := alPop st.adminData userId },
       [Action.send userId (Msg.movieNotInBase code) (some Kb.admin)])
  else
    handle_text_user cfg gcm st userId text

/-- Inbound events dispatched by the aiogram router. -/
inductive Event : Type where
  | startCmd (userId : Nat)
  | adminCmd (userId : Nat)
  | textMsg (userId : Nat) (text : String)
  | cbUserStart (userId : Nat)
  | cbCheckSubs (userId : Nat)
  | cbAdminAdd (userId : Nat)
  | cbAdminList (userId : Nat)
  | cbAdminDelete (userId : Nat)
deriving DecidableEq

/-- One dispatch step of the bot: route an inbound event to its
handler. -/
def step (cfg : Config) (gcm : ChatId → Nat → Option String)
    (st : BotState) : Event → BotState × List Action
  | Event.startCmd u => cmd_start st u
  | Event.adminCmd u => admin_panel cfg st u
  | Event.textMsg u s => handle_text cfg gcm st u s
  | Event.cbUserStart u => callback_user_start st u
  | Event.cbCheckSubs u => callback_check_subs cfg gcm st u
  | Event.cbAdminAdd u => admin_add_movie cfg st u
  | Event.cbAdminList u => admin_list_movies cfg st u
  | Event.cbAdminDelete u => admin_delete_movie cfg st u

/-- State of the process right after startup: `MOVIES = load_movies()`
and all session maps empty. -/
def initState (fs : Option (Option (List (String × String)))) : BotState :=
  { movies := load_movies fs, pendingCodes := [], adminStates := [],
    adminData := [], readyUsers := [] }

/-- Actions that belong to the movie-code lookup path of `handle_text`
(title reply, not-found reply, subscribe prompt). -/
def isLookupAction : Action → Bool
  | Action.send _ (Msg.movieTitle _ _) _ => true
  | Action.send _ Msg.codeNotFound _ => true
  | Action.send _ Msg.subscribePrompt _ => true
  | _ => false

/-- Session invariant: whenever a user's admin state is
`add_wait_title`, the scratch data holds a captured code, so the
`ADMIN_DATA[user_id]["code"]` read of the add-title branch cannot
raise. -/
def AddTitleInv (st : BotState) : Prop :=
  ∀ u : Nat, alGet st.adminStates u = some "add_wait_title" →
    (alGet st.adminData u).isSome = true

/-- Concrete configuration used by evaluation witnesses: administrator
id 7, no required channels. -/
def cfg0 : Config := ⟨7, [], ""⟩

/-- Concrete configuration used by evaluation witnesses: administrator
id 7, one required channel. -/
def cfg1 : Config := ⟨7, ["@films"], ""⟩

/-- Concrete oracle whose membership lookup always raises. -/
def gcm0 : ChatId → Nat → Option String := fun _ _ => none

/-- Concrete oracle that always reports status "member". -/
def gcmMember : ChatId → Nat → Option String := fun _ _ => some "member"

/-- Concrete oracle that always reports status "left". -/
def gcmLeft : ChatId → Nat → Option String := fun _ _ => some "left"

theorem alGet_alSet_self {α β : Type} [DecidableEq α] (m : List (α × β)) (k : α) (v : β) :
    alGet (alSet m k v) k = some v := by
  induction m with
  | nil => simp [alSet, alGet]
  | cons p rest ih =>
    obtain ⟨k', v'⟩ := p
    by_cases h : k' = k
    · subst h
      simp [alSet, alGet]
    · simp [alSet, alGet, h, ih]

theorem alGet_alSet_ne {α β : Type} [DecidableEq α] (m : List (α × β)) (k a : α) (v : β)
    (h : k ≠ a) : alGet (alSet m k v) a = alGet m a := by
  induction m with
  | nil => simp [alSet, alGet, h]
  | cons p rest ih =>
    obtain ⟨k', v'⟩ := p
    by_cases hk : k' = k
    · subst hk
      simp [alSet, alGet, h]
    · simp [alSet, alGet, hk, ih]

theorem alGet_alPop_self {α β : Type} [DecidableEq α] (m : List (α × β)) (a : α) :
    alGet (alPop m a) a = none := by
  induction m with
  | nil => simp [alPop, alGet]
  | cons p rest ih =>
    obtain ⟨k', v'⟩ := p
    by_cases hk : k' = a
    · simp [alPop, hk, ih]
    · simp [alPop, alGet, hk, ih]

theorem alGet_alPop_ne {α β : Type} [DecidableEq α] (m : List (α × β)) (k a : α)
    (h : k ≠ a) : alGet (alPop m k) a = alGet m a := by
  induction m with
  | nil => simp [alPop, alGet]
  | cons p rest ih =>
    obtain ⟨k', v'⟩ := p
    by_cases hk : k' = k
    · simp [alPop, alGet, hk, h, ih]
    · by_cases ha : k' = a
      · have hak : a ≠ k := Ne.symm h
        simp [alPop, alGet, hk, ha, hak, ih]
      · simp [alPop, alGet, hk, ha, ih]

/-- C3: a plain-text message from a sender who is neither activated nor
the administrator is answered with the activation prompt and the start
keyboard, and the whole state — `pendingCodes`, the store, and all
session maps — is returned unchanged, even when the text is a valid
code of the store. -/
theorem C3_activation_gate (cfg : Config) (gcm : ChatId → Nat → Option String)
    (st : BotState) (u : Nat) (rawText : String)
    (hready : u ∉ st.readyUsers) (hadmin : u ≠ cfg.adminId) :
    handle_text cfg gcm st u rawText =
      (st, [Action.send u Msg.activatePrompt (some Kb.start)]) := by
  simp [handle_text, handle_text_user, hadmin, hready]

/-- Evaluation witness for C3: an unactivated non-admin user sending
the valid seed code "A123" gets the activation prompt and no state
change. -/
theorem C3_activation_gate_witness :
    handle_text cfg0 gcm0 (initState none) 1 "A123" =
      (initState none, [Action.send 1 Msg.activatePrompt (some Kb.start)]) :=
  C3_activation_gate cfg0 gcm0 (initState none) 1 "A123" (by decide) (by decide)

/-- C5: `load_movies` is total (never raises); on a missing file or any
read/parse failure it returns exactly the three-entry default seed
mapping, on a successful parse it returns the parsed mapping with keys
uppercased, and every outcome is all-or-nothing: either exactly the
default mapping or exactly the uppercased parsed mapping. -/
theorem C5_load_movies_fallback :
    load_movies none = defaultMovies ∧
    load_movies (some none) = defaultMovies ∧
    (∀ d, load_movies (some (some d)) = upperKeysDict d) ∧
    (∀ fs, load_movies fs = defaultMovies ∨
      ∃ d, fs = some (some d) ∧ load_movies fs = upperKeysDict d) := by
  refine ⟨rfl, rfl, fun d => rfl, fun fs => ?_⟩
  match fs with
  | none => exact Or.inl rfl
  | some none => exact Or.inl rfl
  | some (some d) => exact Or.inr ⟨d, rfl, rfl⟩

/-- C10: any of the three admin-panel buttons pressed by a sender other
than the configured administrator yields exactly an access-denied
alert, and the state — admin mode, admin scratch, `pendingCodes`,
activation set and the store — is returned unchanged. -/
theorem C10_admin_buttons_denied (cfg : Config) (st : BotState) (u : Nat)
    (h : u ≠ cfg.adminId) :
    admin_add_movie cfg st u = (st, [Action.answerAlert u Msg.noAccess]) ∧
    admin_list_movies cfg st u = (st, [Action.answerAlert u Msg.noAccess]) ∧
    admin_delete_movie cfg st u = (st, [Action.answerAlert u Msg.noAccess]) := by
  refine ⟨?_, ?_, ?_⟩ <;>
    simp [admin_add_movie, admin_list_movies, admin_delete_movie, h]

/-- Evaluation witness for C10: user 1 (not the administrator 7)
pressing each admin button gets the alert and no state change. -/
theorem C10_admin_buttons_denied_witness :
    admin_add_movie cfg0 (initState none) 1 =
      (initState none, [Action.answerAlert 1 Msg.noAccess]) ∧
    admin_list_movies cfg0 (initState none) 1 =
      (initState none, [Action.answerAlert 1 Msg.noAccess]) ∧
    admin_delete_movie cfg0 (initState none) 1 =
      (initState none, [Action.answerAlert 1 Msg.noAccess]) :=
  C10_admin_buttons_denied cfg0 (initState none) 1 (by decide)

/-- C6: adding an entry through the admin add-flow (code message `c`,
then title message `tRaw`) and then looking the code up the way the
code-lookup path does (`pyUpper` of the stripped text) returns exactly
the stored title, for any case variation `c'` of the code with the same
uppercasing — both paths normalize the code with `upper()` before
storage or lookup. -/
theorem C6_put_get_roundtrip (cfg : Config) (gcm : ChatId → Nat → Option String)
    (st : BotState) (c c' tRaw : String)
    (hstate : alGet st.adminStates cfg.adminId = some "add_wait_code")
    (hcase : pyUpper (pyStrip c) = pyUpper (pyStrip c')) :
    alGet ((handle_text cfg gcm
        (handle_text cfg gcm st cfg.adminId c).1 cfg.adminId tRaw).1).movies
      (pyUpper (pyStrip c')) = some (pyStrip tRaw) := by
  have h1 : (handle_text cfg gcm st cfg.adminId c).1 =
      { st with adminData := alSet st.adminData cfg.adminId (pyUpper (pyStrip c)),
                adminStates := alSet st.adminStates cfg.adminId "add_wait_title" } := by
    simp [handle_text, hstate]
  rw [h1, ← hcase]
  simp [handle_text, alGet_alSet_self]

/-- Evaluation witness for C6: the admin (id 7) in `add_wait_code` sends
" a1 " then "Film"; looking up "A1" (the uppercasing of the variant
"A1") afterwards returns "Film". -/
theorem C6_put_get_roundtrip_witness :
    alGet ((handle_text cfg0 gcm0
        (handle_text cfg0 gcm0 ⟨[], [], [(7, "add_wait_code")], [], []⟩ 7 " a1 ").1
        7 "Film").1).movies (pyUpper (pyStrip "A1")) = some (pyStrip "Film") :=
  C6_put_get_roundtrip cfg0 gcm0 ⟨[], [], [(7, "add_wait_code")], [], []⟩
    " a1 " "A1" "Film" (by decide) (by decide)

/-- C7: in the admin delete-flow, a code absent from the store yields
the not-found reply, leaves the store untouched, and emits no
`Action.save`; a present code is removed and a save of the shrunk
mapping is emitted — save happens exactly when a removal occurred. -/
theorem C7_delete_flow (cfg : Config) (gcm : ChatId → Nat → Option String)
    (st : BotState) (rawText : String)
    (hstate : alGet st.adminStates cfg.adminId = some "delete_wait_code") :
    (alGet st.movies (pyUpper (pyStrip rawText)) = none →
      handle_text cfg gcm st cfg.adminId rawText =
        ({ st with adminStates := alPop st.adminStates cfg.adminId,
                   adminData := alPop st.adminData cfg.adminId },
         [Action.send cfg.adminId
            (Msg.movieNotInBase (pyUpper (pyStrip rawText))) (some Kb.admin)])) ∧
    (∀ t, alGet st.movies (pyUpper (pyStrip rawText)) = some t →
      handle_text cfg gcm st cfg.adminId rawText =
        ({ st with movies := alPop st.movies (pyUpper (pyStrip rawText)),
                   adminStates := alPop st.adminStates cfg.adminId,
                   adminData := alPop st.adminData cfg.adminId },
         [Action.save (alPop st.movies (pyUpper (pyStrip rawText))),
          Action.send cfg.adminId
            (Msg.movieDeleted (pyUpper (pyStrip rawText)) t) (some Kb.admin)])) := by
  constructor
  · intro habs
    simp [handle_text, hstate, habs]
  · intro t hpres
    simp [handle_text, hstate, hpres]

/-- Evaluation witness for C7: deleting the absent code "Z999" from the
seeded store reports not-found, keeps the store, and emits no save. -/
theorem C7_delete_flow_witness :
    handle_text cfg0 gcm0 ⟨defaultMovies, [], [(7, "delete_wait_code")], [], []⟩
      cfg0.adminId "Z999" =
      (⟨defaultMovies, [], [], [], []⟩,
       [Action.send 7 (Msg.movieNotInBase "Z999") (some Kb.admin)]) := by
  rw [(C7_delete_flow cfg0 gcm0 ⟨defaultMovies, [], [(7, "delete_wait_code")], [], []⟩
      "Z999" (by decide)).1 (by decide)]
  decide

/-- C8 counterexample: with the admin (id 7) in `add_wait_title` and
scratch code "A123", sending " Inception " stores the stripped title
"Inception", not the raw message text " Inception " — `handle_text`
strips every incoming text before using it, titles included. -/
theorem C8_counterexample :
    alGet ((handle_text cfg0 gcm0
        ⟨[], [], [(7, "add_wait_title")], [(7, "A123")], []⟩ 7 " Inception ").1).movies
      "A123" = some "Inception" ∧
    alGet ((handle_text cfg0 gcm0
        ⟨[], [], [(7, "add_wait_title")], [(7, "A123")], []⟩ 7 " Inception ").1).movies
      "A123" ≠ some " Inception " := by
  constructor
  · decide
  · decide

/-- C8 (amended): for every text message while the administrator is in
`add_wait_title` with a captured scratch code, the stripped message
text (whitespace-trimmed, no case normalization) is taken as the title,
the store is updated at the scratch code together with a save, and the
admin state is cleared back to no mode. -/
theorem C8_add_title_trimmed (cfg : Config) (gcm : ChatId → Nat → Option String)
    (st : BotState) (rawText code : String)
    (hstate : alGet st.adminStates cfg.adminId = some "add_wait_title")
    (hdata : alGet st.adminData cfg.adminId = some code) :
    handle_text cfg gcm st cfg.adminId rawText =
      ({ st with movies := alSet st.movies code (pyStrip rawText),
                 adminStates := alPop st.adminStates cfg.adminId,
                 adminData := alPop st.adminData cfg.adminId },
       [Action.save (alSet st.movies code (pyStrip rawText)),
        Action.send cfg.adminId (Msg.movieAdded code (pyStrip rawText)) (some Kb.admin)]) ∧
    alGet (handle_text cfg gcm st cfg.adminId rawText).1.adminStates cfg.adminId = none := by
  have hmain : handle_text cfg gcm st cfg.adminId rawText =
      ({ st with movies := alSet st.movies code (pyStrip rawText),
                 adminStates := alPop st.adminStates cfg.adminId,
                 adminData := alPop st.adminData cfg.adminId },
       [Action.save (alSet st.movies code (pyStrip rawText)),
        Action.send cfg.adminId (Msg.movieAdded code (pyStrip rawText)) (some Kb.admin)]) := by
    simp [handle_text, hstate, hdata]
  refine ⟨hmain, ?_⟩
  rw [hmain]
  exact alGet_alPop_self st.adminStates cfg.adminId

/-- Evaluation witness for C8 (amended), matching the spec scenario:
after the admin captured code "A123" (from sending "a123") and sends
"Inception", the store maps "A123" to "Inception" and the admin state
is cleared. -/
theorem C8_add_title_trimmed_witness :
    handle_text cfg0 gcm0 ⟨[], [], [(7, "add_wait_title")], [(7, "A123")], []⟩
      cfg0.adminId "Inception" =
      (⟨[("A123", "Inception")], [], [], [], []⟩,
       [Action.save [("A123", "Inception")],
        Action.send 7 (Msg.movieAdded "A123" "Inception") (some Kb.admin)]) := by
  rw [(C8_add_title_trimmed cfg0 gcm0
      ⟨[], [], [(7, "add_wait_title")], [(7, "A123")], []⟩ "Inception" "A123"
      (by decide) (by decide)).1]
  decide

/-- C1: pressing "I subscribed" with the check reporting not-subscribed
yields only the ephemeral alert and no session change; subscribed with
no pending code yields the generic send-a-code edit with no session
change; subscribed with a (non-empty) pending code absent from the
store yields the code-mismatch edit and clears the pending code;
subscribed with the pending code resolving in the store (to a non-empty
title — the empty string is falsy in the source) yields the resolved
title and clears the pending code. -/
theorem C1_check_subs (cfg : Config) (gcm : ChatId → Nat → Option String)
    (st : BotState) (u : Nat) :
    (is_user_subscribed cfg.requiredChannels gcm u = false →
      callback_check_subs cfg gcm st u =
        (st, [Action.answerAlert u Msg.notYetSubscribed])) ∧
    (is_user_subscribed cfg.requiredChannels gcm u = true →
      (alGet st.pendingCodes u = none →
        callback_check_subs cfg gcm st u =
          (st, [Action.edit u Msg.subscribedGeneric none])) ∧
      (∀ c, alGet st.pendingCodes u = some c → c ≠ "" →
        (alGet st.movies c = none →
          callback_check_subs cfg gcm st u =
            ({ st with pendingCodes := alPop st.pendingCodes u },
             [Action.edit u Msg.codeMismatch none])) ∧
        (∀ t, alGet st.movies c = some t → t ≠ "" →
          callback_check_subs cfg gcm st u =
            ({ st with pendingCodes := alPop st.pendingCodes u },
             [Action.edit u (Msg.movieTitle c t) none])))) := by
  constructor
  · intro hsub
    simp [callback_check_subs, hsub]
  · intro hsub
    refine ⟨?_, ?_⟩
    · intro hnone
      simp [callback_check_subs, hsub, hnone, strFalsy]
    · intro c hc hcne
      constructor
      · intro habs
        simp [callback_check_subs, hsub, hc, hcne, habs, strFalsy]
      · intro t ht htne
        simp [callback_check_subs, hsub, hc, hcne, ht, htne, strFalsy]

/-- Evaluation witness for C1: with one required channel and an oracle
reporting "left", the confirm button answers with the ephemeral alert
and changes nothing; with no channels (always subscribed), pending code
"A123" resolves in the seeded store to its title and the pending code
is cleared. -/
theorem C1_check_subs_witness :
    callback_check_subs cfg1 gcmLeft (initState none) 1 =
      (initState none, [Action.answerAlert 1 Msg.notYetSubscribed]) ∧
    callback_check_subs cfg0 gcmMember
      ⟨defaultMovies, [(1, "A123")], [], [], []⟩ 1 =
      (⟨defaultMovies, [], [], [], []⟩,
       [Action.edit 1 (Msg.movieTitle "A123" "Бойцовский клуб") none]) := by
  constructor
  · exact (C1_check_subs cfg1 gcmLeft (initState none) 1).1 (by decide)
  · rw [((C1_check_subs cfg0 gcmMember ⟨defaultMovies, [(1, "A123")], [], [], []⟩ 1).2
        (by decide)).2 "A123" (by decide) (by decide) |>.2 "Бойцовский клуб"
        (by decide) (by decide)]
    decide

theorem subsLoop_true_iff (gcm : ChatId → Nat → Option String) (u : Nat)
    (channels : List String) :
    subsLoop gcm u channels = true ↔
      ∀ c ∈ channels, ∃ s, gcm (parseChannel c) u = some s ∧ s ≠ "left" ∧ s ≠ "kicked" := by
  induction channels with
  | nil => simp [subsLoop]
  | cons ch rest ih =>
    simp only [subsLoop]
    cases hg : gcm (parseChannel ch) u with
    | none =>
      constructor
      · intro h
        exact absurd h (by simp)
      · intro h
        obtain ⟨s, hs, -, -⟩ := h ch (List.mem_cons_self ch rest)
        rw [hg] at hs
        exact Option.noConfusion hs
    | some s =>
      show (if s = "left" ∨ s = "kicked" then false else subsLoop gcm u rest) = true ↔ _
      by_cases hlk : s = "left" ∨ s = "kicked"
      · rw [if_pos hlk]
        constructor
        · intro h
          exact absurd h (by simp)
        · intro h
          obtain ⟨s', hs', hl', hk'⟩ := h ch (List.mem_cons_self ch rest)
          rw [hg] at hs'
          have hss : s = s' := by injection hs'
          rcases hlk with h1 | h1
          · exact absurd (hss ▸ h1) hl'
          · exact absurd (hss ▸ h1) hk'
      · rw [if_neg hlk]
        push_neg at hlk
        obtain ⟨hl, hk⟩ := hlk
        rw [ih]
        constructor
        · intro h c hc
          rcases List.mem_cons.mp hc with rfl | hc'
          · exact ⟨s, hg, hl, hk⟩
          · exact h c hc'
        · intro h c hc
          exact h c (List.mem_cons_of_mem ch hc)

theorem subsLoop_append_false (gcm : ChatId → Nat → Option String) (u : Nat)
    (pre : List String) (ch : String) (post : List String)
    (hpre : ∀ c ∈ pre, ∃ s, gcm (parseChannel c) u = some s ∧ s ≠ "left" ∧ s ≠ "kicked")
    (hch : gcm (parseChannel ch) u = none ∨ gcm (parseChannel ch) u = some "left" ∨
      gcm (parseChannel ch) u = some "kicked") :
    subsLoop gcm u (pre ++ ch :: post) = false := by
  induction pre with
  | nil =>
    rcases hch with h | h | h <;> simp [subsLoop, h]
  | cons c rest ih =>
    obtain ⟨s, hs, hl, hk⟩ := hpre c (List.mem_cons_self c rest)
    have : subsLoop gcm u ((c :: rest) ++ ch :: post) =
        subsLoop gcm u (rest ++ ch :: post) := by
      simp [subsLoop, hs, hl, hk]
    rw [this]
    exact ih (fun c' hc' => hpre c' (List.mem_cons_of_mem c hc'))

/-- C4: `is_user_subscribed` returns true for the empty channel list
under every oracle (so the lookup result is irrelevant and never
needed); it returns false whenever the first channel after a prefix of
passing channels raises (`none`) or reports "left"/"kicked", whatever
channels follow (fail-closed, short-circuiting, no error propagated —
the function is total); and it returns true exactly when every
configured channel yields some status other than "left"/"kicked". -/
theorem C4_is_user_subscribed (u : Nat) :
    (∀ gcm : ChatId → Nat → Option String, is_user_subscribed [] gcm u = true) ∧
    (∀ (pre : List String) (ch : String) (post : List String)
        (gcm : ChatId → Nat → Option String),
      (∀ c ∈ pre, ∃ s, gcm (parseChannel c) u = some s ∧ s ≠ "left" ∧ s ≠ "kicked") →
      (gcm (parseChannel ch) u = none ∨ gcm (parseChannel ch) u = some "left" ∨
        gcm (parseChannel ch) u = some "kicked") →
      is_user_subscribed (pre ++ ch :: post) gcm u = false) ∧
    (∀ (channels : List String) (gcm : ChatId → Nat → Option String),
      is_user_subscribed channels gcm u = true ↔
        ∀ c ∈ channels, ∃ s, gcm (parseChannel c) u = some s ∧ s ≠ "left" ∧ s ≠ "kicked") :=
  ⟨fun _ => rfl,
   fun pre ch post gcm hpre hch => subsLoop_append_false gcm u pre ch post hpre hch,
   fun channels gcm => subsLoop_true_iff gcm u channels⟩

/-- Evaluation witness for C4: the empty channel list is subscribed
even under the always-"left" oracle, and a raising lookup on the first
of two channels makes the check fail even though the second channel is
never reached. -/
theorem C4_is_user_subscribed_witness :
    is_user_subscribed [] gcmLeft 1 = true ∧
    is_user_subscribed ["5", "@x"] gcm0 1 = false :=
  ⟨(C4_is_user_subscribed 1).1 gcmLeft,
   (C4_is_user_subscribed 1).2.1 [] "5" ["@x"] gcm0 (by simp) (Or.inl rfl)⟩

/-- C2: a text message from the administrator while an admin mode is
active (one of the three admin states) is consumed by the admin flow
and never routed into movie-code lookup: `pendingCodes` is unchanged
and no lookup-path action (title reply, not-found reply, subscribe
prompt) is emitted — even when the text equals a code present in the
store — and in `add_wait_code` the uppercased text is captured into the
scratch data. -/
theorem C2_admin_preemption (cfg : Config) (gcm : ChatId → Nat → Option String)
    (st : BotState) (rawText s : String)
    (hs : alGet st.adminStates cfg.adminId = some s)
    (h3 : s = "add_wait_code" ∨ s = "add_wait_title" ∨ s = "delete_wait_code") :
    (handle_text cfg gcm st cfg.adminId rawText).1.pendingCodes = st.pendingCodes ∧
    (∀ a ∈ (handle_text cfg gcm st cfg.adminId rawText).2, isLookupAction a = false) ∧
    (s = "add_wait_code" →
      (handle_text cfg gcm st cfg.adminId rawText).1.adminData =
        alSet st.adminData cfg.adminId (pyUpper (pyStrip rawText))) := by
  rcases h3 with rfl | rfl | rfl
  · refine ⟨?_, ?_, ?_⟩ <;> simp [handle_text, hs, isLookupAction]
  · cases hd : alGet st.adminData cfg.adminId with
    | none => refine ⟨?_, ?_, ?_⟩ <;> simp [handle_text, hs, hd, isLookupAction]
    | some code => refine ⟨?_, ?_, ?_⟩ <;> simp [handle_text, hs, hd, isLookupAction]
  · cases hm : alGet st.movies (pyUpper (pyStrip rawText)) with
    | none => refine ⟨?_, ?_, ?_⟩ <;> simp [handle_text, hs, hm, isLookupAction]
    | some t => refine ⟨?_, ?_, ?_⟩ <;> simp [handle_text, hs, hm, isLookupAction]

/-- Evaluation witness for C2: the admin (id 7) in `add_wait_code`
sends "A123", which is a valid code of the seeded store; no pending
code is set and the text is captured into the scratch data instead of
being looked up. -/
theorem C2_admin_preemption_witness :
    (handle_text cfg0 gcm0 ⟨defaultMovies, [], [(7, "add_wait_code")], [], []⟩
      cfg0.adminId "A123").1.pendingCodes = [] ∧
    (handle_text cfg0 gcm0 ⟨defaultMovies, [], [(7, "add_wait_code")], [], []⟩
      cfg0.adminId "A123").1.adminData =
      alSet [] cfg0.adminId (pyUpper (pyStrip "A123")) := by
  have h := C2_admin_preemption cfg0 gcm0
    ⟨defaultMovies, [], [(7, "add_wait_code")], [], []⟩ "A123" "add_wait_code"
    (by decide) (Or.inl rfl)
  exact ⟨h.1, h.2.2 rfl⟩

theorem AddTitleInv_frame (st st' : BotState)
    (hs : st'.adminStates = st.adminStates) (hd : st'.adminData = st.adminData)
    (hinv : AddTitleInv st) : AddTitleInv st' := by
  intro u h
  rw [hd]
  exact hinv u (hs ▸ h)

theorem AddTitleInv_popBoth (st : BotState) (u : Nat) (st' : BotState)
    (hs : st'.adminStates = alPop st.adminStates u)
    (hd : st'.adminData = alPop st.adminData u)
    (hinv : AddTitleInv st) : AddTitleInv st' := by
  intro v hv
  rw [hs] at hv
  rw [hd]
  by_cases hvu : v = u
  · subst hvu
    rw [alGet_alPop_self] at hv
    exact Option.noConfusion hv
  · rw [alGet_alPop_ne st.adminStates u v (Ne.symm hvu)] at hv
    rw [alGet_alPop_ne st.adminData u v (Ne.symm hvu)]
    exact hinv v hv

theorem AddTitleInv_setOther (st : BotState) (u : Nat) (s : String) (st' : BotState)
    (hns : s ≠ "add_wait_title")
    (hs : st'.adminStates = alSet st.adminStates u s)
    (hd : st'.adminData = alPop st.adminData u)
    (hinv : AddTitleInv st) : AddTitleInv st' := by
  intro v hv
  rw [hs] at hv
  rw [hd]
  by_cases hvu : v = u
  · subst hvu
    rw [alGet_alSet_self] at hv
    injection hv with hv'
    exact absurd hv' hns
  · rw [alGet_alSet_ne st.adminStates u v s (Ne.symm hvu)] at hv
    rw [alGet_alPop_ne st.adminData u v (Ne.symm hvu)]
    exact hinv v hv

theorem AddTitleInv_setAdd (st : BotState) (u : Nat) (c : String) (st' : BotState)
    (hs : st'.adminStates = alSet st.adminStates u "add_wait_title")
    (hd : st'.adminData = alSet st.adminData u c)
    (hinv : AddTitleInv st) : AddTitleInv st' := by
  intro v hv
  rw [hs] at hv
  rw [hd]
  by_cases hvu : v = u
  · subst hvu
    rw [alGet_alSet_self]
    rfl
  · rw [alGet_alSet_ne st.adminStates u v _ (Ne.symm hvu)] at hv
    rw [alGet_alSet_ne st.adminData u v c (Ne.symm hvu)]
    exact hinv v hv

theorem handle_text_user_frame (cfg : Config) (gcm : ChatId → Nat → Option String)
    (st : BotState) (u : Nat) (text : String) :
    (handle_text_user cfg gcm st u text).1.adminStates = st.adminStates ∧
    (handle_text_user cfg gcm st u text).1.adminData = st.adminData ∧
    Action.keyError ∉ (handle_text_user cfg gcm st u text).2 := by
  simp only [handle_text_user]
  split_ifs <;> simp

/-- C9: the session invariant "whenever a user's admin state is
`add_wait_title`, the scratch data holds a captured code" is preserved
by every event handler, and under it no handler ever reaches the
missing-key (`KeyError`) branch of the add-title read of the scratch
code. -/
theorem C9_add_title_invariant (cfg : Config) (gcm : ChatId → Nat → Option String)
    (st : BotState) (e : Event) (hinv : AddTitleInv st) :
    AddTitleInv (step cfg gcm st e).1 ∧ Action.keyError ∉ (step cfg gcm st e).2 := by
  cases e with
  | startCmd u =>
    exact ⟨AddTitleInv_frame st _ rfl rfl hinv, by simp [step, cmd_start]⟩
  | adminCmd u =>
    show AddTitleInv (admin_panel cfg st u).1 ∧ Action.keyError ∉ (admin_panel cfg st u).2
    simp only [admin_panel]
    split_ifs <;> exact ⟨AddTitleInv_frame st _ rfl rfl hinv, by simp⟩
  | cbUserStart u =>
    exact ⟨AddTitleInv_frame st _ rfl rfl hinv, by simp [step, callback_user_start]⟩
  | cbCheckSubs u =>
    show AddTitleInv (callback_check_subs cfg gcm st u).1 ∧
      Action.keyError ∉ (callback_check_subs cfg gcm st u).2
    simp only [callback_check_subs]
    split_ifs <;> exact ⟨AddTitleInv_frame st _ rfl rfl hinv, by simp⟩
  | cbAdminAdd u =>
    show AddTitleInv (admin_add_movie cfg st u).1 ∧
      Action.keyError ∉ (admin_add_movie cfg st u).2
    simp only [admin_add_movie]
    split_ifs
    · exact ⟨AddTitleInv_frame st _ rfl rfl hinv, by simp⟩
    · exact ⟨AddTitleInv_setOther st u "add_wait_code" _ (by decide) rfl rfl hinv, by simp⟩
  | cbAdminList u =>
    show AddTitleInv (admin_list_movies cfg st u).1 ∧
      Action.keyError ∉ (admin_list_movies cfg st u).2
    simp only [admin_list_movies]
    split_ifs <;> exact ⟨AddTitleInv_frame st _ rfl rfl hinv, by simp⟩
  | cbAdminDelete u =>
    show AddTitleInv (admin_delete_movie cfg st u).1 ∧
      Action.keyError ∉ (admin_delete_movie cfg st u).2
    simp only [admin_delete_movie]
    split_ifs
    · exact ⟨AddTitleInv_frame st _ rfl rfl hinv, by simp⟩
    · exact ⟨AddTitleInv_setOther st u "delete_wait_code" _ (by decide) rfl rfl hinv, by simp⟩
  | textMsg u rawText =>
    show AddTitleInv (handle_text cfg gcm st u rawText).1 ∧
      Action.keyError ∉ (handle_text cfg gcm st u rawText).2
    simp only [handle_text]
    by_cases h1 : u = cfg.adminId ∧ alGet st.adminStates u = some "add_wait_code"
    · rw [if_pos h1]
      exact ⟨AddTitleInv_setAdd st u _ _ rfl rfl hinv, by simp⟩
    · rw [if_neg h1]
      by_cases h2 : u = cfg.adminId ∧ alGet st.adminStates u = some "add_wait_title"
      · rw [if_pos h2]
        cases hd : alGet st.adminData u with
        | none =>
          have hsome := hinv u h2.2
          rw [hd] at hsome
          exact absurd hsome (by simp)
        | some code =>
          exact ⟨AddTitleInv_popBoth st u _ rfl rfl hinv, by simp⟩
      · rw [if_neg h2]
        by_cases h3 : u = cfg.adminId ∧ alGet st.adminStates u = some "delete_wait_code"
        · rw [if_pos h3]
          cases hm : alGet st.movies (pyUpper (pyStrip rawText)) with
          | none => exact ⟨AddTitleInv_popBoth st u _ rfl rfl hinv, by simp⟩
          | some t => exact ⟨AddTitleInv_popBoth st u _ rfl rfl hinv, by simp⟩
        · rw [if_neg h3]
          obtain ⟨hfs, hfd, hfk⟩ := handle_text_user_frame cfg gcm st u (pyStrip rawText)
          exact ⟨AddTitleInv_frame st _ hfs hfd hinv, hfk⟩

/-- Evaluation witness for C9: from the freshly started state (which
trivially satisfies the invariant), a text event for the administrator
preserves the invariant and raises no `KeyError`. -/
theorem C9_add_title_invariant_witness :
    AddTitleInv (step cfg0 gcm0 (initState none) (Event.textMsg 7 "A123")).1 ∧
    Action.keyError ∉ (step cfg0 gcm0 (initState none) (Event.textMsg 7 "A123")).2 :=
  C9_add_title_invariant cfg0 gcm0 (initState none) (Event.textMsg 7 "A123")
    (fun u h => by simp [initState, alGet] at h)

end Tgbot
